import Mathlib

/-!
Formal model of the query-answering pipeline of the chatbot repository
(`src/dlai/backend/modern_chatbot.py`; the semantic-cache and generation code
is shared verbatim with `src/dlai/modern_chatbot.py`).

Conventions of the embedding:
* Python dicts are association lists `List (String × _)` in insertion order;
  `dictSet` mirrors `d[k] = v` (update in place if the key exists, append
  otherwise) and `dictGet` mirrors `d.get(k)`.
* Machine floats are modelled as rationals.  `np.linalg.norm` involves a real
  square root, so it is kept abstract as the `nrm` field of the environment;
  every theorem about the cache holds for an arbitrary `nrm`.  Division by
  zero is the Lean convention `x / 0 = 0`; under IEEE arithmetic the same
  expressions produce `NaN`, and both `0` and `NaN` compare `false` against a
  non-negative threshold, so the branching behaviour coincides.
* The external collaborators (embedding service, language model, query
  engine, uuid generator, wall clock) are fields of an `Env` record; fallible
  services return `Except String _`, and an uncaught Python exception is the
  `Except.error` case of a function's result.
* JSON-like Python values are the inductive `PyVal`.
-/

/-- JSON-like values as stored in Python dict responses. -/
inductive PyVal where
  | str : String → PyVal
  | num : ℚ → PyVal
  | bool : Bool → PyVal
  | list : List PyVal → PyVal
  | dict : List (String × PyVal) → PyVal
deriving Repr

/-- A result row: a mapping from column name to value. -/
abbrev Row := List (String × PyVal)

/-- A response object as returned by `ask`: a Python dict. -/
abbrev Resp := List (String × PyVal)

/-- `d.get(k)` on a Python dict modelled as an insertion-ordered list. -/
def dictGet (d : List (String × α)) (k : String) : Option α :=
  (d.find? (fun p => p.1 == k)).map (fun p => p.2)

/-- `d[k] = v` on a Python dict: replace in place when the key is present
(keeping its position), append otherwise. -/
def dictSet (d : List (String × α)) (k : String) (v : α) : List (String × α) :=
  if (d.find? (fun p => p.1 == k)).isSome then
    d.map (fun p => if p.1 == k then (k, v) else p)
  else
    d ++ [(k, v)]

/-- `d[k]` on a Python dict; a missing key is a `KeyError`. -/
def pyGet (d : List (String × α)) (k : String) : Except String α :=
  match dictGet d k with
  | some v => Except.ok v
  | none => Except.error ("KeyError: " ++ k)

/-- The Python substring test `needle in hay` over character lists. -/
def subIn (needle hay : List Char) : Bool :=
  (List.range (hay.length + 1)).any (fun i => needle.isPrefixOf (hay.drop i))

/-- The Python substring test `needle in hay` on strings. -/
def strIn (needle hay : String) : Bool :=
  subIn needle.data hay.data

/-- Python `str.lower()` (character-wise, kernel-reducible model). -/
def pyLower (s : String) : String :=
  ⟨s.data.map Char.toLower⟩

/-- Python `str.strip()`: drop leading and trailing whitespace. -/
def pyStrip (s : String) : String :=
  ⟨((s.data.dropWhile Char.isWhitespace).reverse.dropWhile Char.isWhitespace).reverse⟩

/-- Python `s[:n]` on strings. -/
def pyTake (s : String) (n : Nat) : String :=
  ⟨s.data.take n⟩

/-- The Python slice `xs[-n:]` (for `n = 0` it is the whole list). -/
def pySliceLast (xs : List α) (n : Nat) : List α :=
  if n = 0 then xs else xs.drop (xs.length - n)

/-- `np.dot` on two (equal-length) vectors. -/
def dot : List ℚ → List ℚ → ℚ
  | x :: xs, y :: ys => x * y + dot xs ys
  | _, _ => 0

-- ===========================================================================
-- Data model (structured-output contracts, session memory, semantic cache)
-- ===========================================================================

/-- Structured output for SQL generation (`SQLQuery` pydantic model; in the
source `requires_execution` defaults to `True`). -/
structure SQLQuery where
  sql : String
  reasoning : String
  business_context : String
  confidence : ℚ
  requires_execution : Bool := true
deriving Repr, DecidableEq

/-- Structured insights from data analysis (`DataInsight` pydantic model). -/
structure DataInsight where
  key_finding : String
  supporting_metrics : List String
  recommendations : List String
  related_questions : List String
deriving Repr, DecidableEq

/-- One conversation turn stored in session memory. -/
structure ConversationTurn where
  question : String
  answer : String
  sql_used : String
  timestamp : Nat
  session_id : String
deriving Repr, DecidableEq

/-- Session memory: per-session turn lists plus the retention bound. -/
structure SessionMemory where
  sessions : List (String × List ConversationTurn)
  max_turns : Nat
deriving Repr

/-- One semantic-cache entry (`CacheEntry` dataclass). -/
structure CacheEntry where
  query_embedding : List ℚ
  sql_query : String
  results : Resp
  timestamp : Nat
  hit_count : Nat := 0
deriving Repr

/-- The semantic cache: md5-keyed entries in insertion order, plus the
similarity threshold (default 0.85). -/
structure SemanticCache where
  cache : List (String × CacheEntry)
  similarity_threshold : ℚ
deriving Repr

/-- The result of `validate_follow_up_question` (a Python dict in the source;
`is_follow_up` and `context_available` default to `False` / `""` on the
branches whose dict omits them, matching the callers' `.get` defaults). -/
structure FollowUpValidation where
  valid : Bool
  is_follow_up : Bool
  context_available : String
  message : String
deriving Repr, DecidableEq

/-- Input assembled into the SQL-generation prompt.  The static schema and
business-concept context are fixed per process and folded into the language
model oracle; the per-request components kept explicit are the ones the
claims depend on. -/
structure LLMInput where
  question : String
  conversation_context : String
  follow_up_instruction : String
deriving Repr, DecidableEq

/-- External collaborators of the pipeline (spec sections 1 and 6). -/
structure Env where
  /-- embedding service `model.encode`; may fail (raise / time out) -/
  embed : String → Except String (List ℚ)
  /-- `np.linalg.norm`; kept abstract because it involves a real square root -/
  nrm : List ℚ → ℚ
  /-- `hashlib.md5(...).hexdigest()` -/
  md5 : String → String
  /-- the structured-output language model call for SQL generation -/
  llm : LLMInput → Except String SQLQuery
  /-- the structured-output language model call for insights -/
  llmInsight : String → List Row → Except String DataInsight
  /-- the DuckDB query engine: rows as dicts, or an error for invalid SQL -/
  db : String → Except String (List Row)
  /-- `uuid.uuid4()` for requests without a session id -/
  newUuid : String
  /-- wall-clock seconds measured around the request -/
  elapsedTime : ℚ

/-- Combined mutable state of one chatbot instance. -/
structure ChatbotState where
  cache : SemanticCache
  memory : SessionMemory
deriving Repr

/-- Result of one `ask` call: the response dict, the new state, and (as
instrumentation of the side effect) the SQL text passed to `_execute_query`,
if any. -/
structure AskOutcome where
  response : Resp
  state : ChatbotState
  executedSql : Option String
deriving Repr

-- ===========================================================================
-- Session memory operations
-- ===========================================================================

/-- Append one turn and trim to the last `max_turns` (`xs[-max_turns:]`). -/
def turnStep (maxT : Nat) (ts : List ConversationTurn) (t : ConversationTurn) :
    List ConversationTurn :=
  let ts2 := ts ++ [t]
  if ts2.length > maxT then pySliceLast ts2 maxT else ts2

/-- `SessionMemory.add_turn`. -/
def SessionMemory.add_turn (m : SessionMemory) (sid question answer sql_used : String)
    (now : Nat) : SessionMemory :=
  let turns := (dictGet m.sessions sid).getD []
  { m with
    sessions := dictSet m.sessions sid
      (turnStep m.max_turns turns ⟨question, answer, sql_used, now, sid⟩) }

/-- `SessionMemory.get_conversation_context` (rendered text; the prompt prose
is abbreviated, the structure — last five turns, 150-character answer
previews — is kept). -/
def SessionMemory.get_conversation_context (m : SessionMemory) (sid : String) : String :=
  match dictGet m.sessions sid with
  | none => ""
  | some turns =>
    if turns.isEmpty then ""
    else
      let parts := (pySliceLast turns 5).map (fun t =>
        "User asked: " ++ t.question ++ " Response summary: " ++ pyTake t.answer 150 ++
        "... SQL executed: " ++ t.sql_used)
      "CONVERSATION HISTORY (Previous questions in this session): " ++
        String.intercalate " " parts ++
        " IMPORTANT: Only reference information that was actually mentioned in previous questions."

/-- The fixed lexicon of referential follow-up markers. -/
def follow_up_keywords : List String :=
  ["anteriormente", "mencioné", "mencionaste", "dijiste",
   "esa", "ese", "esos", "esas", "aquella", "aquel",
   "la anterior", "el anterior", "antes", "previamente"]

/-- `SessionMemory.validate_follow_up_question`. -/
def SessionMemory.validate_follow_up_question (m : SessionMemory) (sid question : String) :
    FollowUpValidation :=
  match dictGet m.sessions sid with
  | none => ⟨true, false, "", ""⟩
  | some turns =>
    if turns.isEmpty then ⟨true, false, "", ""⟩
    else
      let question_lower := pyLower question
      if follow_up_keywords.any (fun kw => strIn kw question_lower) then
        let context_summary := String.intercalate " " (turns.map (fun t => pyLower t.question))
        ⟨true, true, context_summary,
          "Follow-up question detected. Previous context: " ++ pyTake context_summary 200 ++ "..."⟩
      else ⟨true, false, "", ""⟩

-- ===========================================================================
-- Semantic cache operations
-- ===========================================================================

/-- Cosine similarity as written in the source:
`np.dot(q, e) / (np.linalg.norm(q) * np.linalg.norm(e))`. -/
def simOf (nrm : List ℚ → ℚ) (qe : List ℚ) (e : CacheEntry) : ℚ :=
  dot qe e.query_embedding / (nrm qe * nrm e.query_embedding)

/-- One iteration of the best-match loop in `get_similar_query`:
update `(best_match, best_similarity)` when
`similarity > best_similarity and similarity > threshold`. -/
def simStep (nrm : List ℚ → ℚ) (t : ℚ) (qe : List ℚ)
    (st : Option (String × CacheEntry) × ℚ) (p : String × CacheEntry) :
    Option (String × CacheEntry) × ℚ :=
  let s := simOf nrm qe p.2
  if s > st.2 ∧ s > t then (some p, s) else st

/-- `SemanticCache._get_query_key`: md5 of the lowercased, stripped question. -/
def SemanticCache.query_key (env : Env) (q : String) : String :=
  env.md5 (pyStrip (pyLower q))

/-- `SemanticCache.get_similar_query`.  Note that the `model.encode` call is
not wrapped in any `try`, so an embedding failure escapes; on a hit the
matched entry's `hit_count` is incremented in place (the returned cache). -/
def SemanticCache.get_similar_query (env : Env) (c : SemanticCache) (query : String) :
    Except String (Option (String × CacheEntry) × SemanticCache) :=
  match env.embed query with
  | Except.error e => Except.error e
  | Except.ok query_embedding =>
    let st := c.cache.foldl (simStep env.nrm c.similarity_threshold query_embedding) (none, 0)
    match st.1 with
    | some p =>
      let e := { p.2 with hit_count := p.2.hit_count + 1 }
      Except.ok (some (p.1, e), { c with cache := dictSet c.cache p.1 e })
    | none => Except.ok (none, c)

/-- `SemanticCache.store_query` (like the lookup, the encode call may fail). -/
def SemanticCache.store_query (env : Env) (c : SemanticCache) (query sql : String)
    (results : Resp) (now : Nat) : Except String SemanticCache :=
  match env.embed query with
  | Except.error e => Except.error e
  | Except.ok embedding =>
    Except.ok { c with
      cache := dictSet c.cache (SemanticCache.query_key env query)
        ⟨embedding, sql, results, now, 0⟩ }

-- ===========================================================================
-- The chatbot engine (`ModernDataChatbot`)
-- ===========================================================================

/-- The follow-up instruction block added to the generation prompt when a
referential marker was detected (prose abbreviated; the truncated prior
context, `[:300]`, is kept). -/
def mkFollowUpInstruction (ctx : String) : String :=
  "FOLLOW-UP QUESTION DETECTED: The user is referencing something from previous conversation. Previous context: " ++
    pyTake ctx 300 ++
    " CRITICAL: Only answer based on what was ACTUALLY mentioned in previous questions."

/-- The per-request part of the SQL-generation prompt.  The static schema
context and the business-concept context are constant per process and live
inside the language-model oracle; conversation context and the follow-up
instruction are assembled exactly as in the source (`if session_id:`). -/
def llmInputOf (mem : SessionMemory) (question sid : String) : LLMInput :=
  let conversation_context :=
    if sid = "" then "" else SessionMemory.get_conversation_context mem sid
  let validation :=
    if sid = "" then (⟨true, false, "", ""⟩ : FollowUpValidation)
    else SessionMemory.validate_follow_up_question mem sid question
  let follow_up_instruction :=
    if validation.is_follow_up then mkFollowUpInstruction validation.context_available else ""
  { question := question,
    conversation_context := conversation_context,
    follow_up_instruction := follow_up_instruction }

/-- `ModernDataChatbot._generate_sql_with_structured_output`: call the
language model demanding a structured `SQLQuery`; on ANY failure return the
fixed fallback (`SELECT * FROM tiendas LIMIT 10`, confidence 0.1, reasoning
set to the error, `requires_execution` left at its pydantic default `True`).
The function is total: the generation step never raises to its caller. -/
def ModernDataChatbot.generate_sql_with_structured_output (env : Env) (mem : SessionMemory)
    (question sid : String) : SQLQuery :=
  match env.llm (llmInputOf mem question sid) with
  | Except.ok r => r
  | Except.error e =>
    { sql := "SELECT * FROM tiendas LIMIT 10",
      reasoning := "Error in SQL generation: " ++ e,
      business_context := "Unable to generate proper query",
      confidence := 1 / 10,
      requires_execution := true }

/-- `ModernDataChatbot._execute_query`: run the SQL; an engine error becomes
a single error row instead of an exception. -/
def ModernDataChatbot.execute_query (env : Env) (sql : String) : List Row :=
  match env.db sql with
  | Except.ok rows => rows
  | Except.error e => [[("error", PyVal.str e)]]

/-- The substring patterns treated as trivial/general questions. -/
def trivial_patterns : List String :=
  ["chatgpt", "gpt", "openai", "sos", "eres", "who are you", "what are you",
   "hola", "hello", "hi", "buenos días", "good morning", "como estas",
   "how are you", "gracias", "thank you", "adiós", "goodbye"]

/-- Canned identity answer for chatgpt/gpt questions (source literal,
inner quotation marks dropped). -/
def insightIdentity : DataInsight :=
  { key_finding := "Soy un asistente de análisis de datos para Gatorade, basado en IA pero especializado en el análisis de experimentos y métricas de negocio.",
    supporting_metrics := ["Capacidad de análisis de datos de tiendas", "Memoria conversacional", "Consultas SQL automáticas"],
    recommendations := ["Prueba preguntas sobre tiendas por región", "Explora los experimentos realizados"],
    related_questions := ["Qué puedes hacer", "Qué datos tienes disponibles", "Cómo puedo analizar experimentos"] }

/-- Canned greeting answer (source literal, inner quotation marks dropped). -/
def insightGreeting : DataInsight :=
  { key_finding := "Hola, soy tu asistente de análisis de datos para Gatorade. Estoy aquí para ayudarte a analizar experimentos, métricas de tiendas y datos de negocio.",
    supporting_metrics := ["200 tiendas en la base de datos", "Análisis por regiones disponible", "Datos de experimentos A/B"],
    recommendations := ["Empieza con una pregunta sobre las tiendas", "Explora los experimentos realizados", "Analiza métricas por región"],
    related_questions := ["Cuántas tiendas tenemos", "Qué experimentos hay disponibles", "Cómo está el performance por región"] }

/-- `ModernDataChatbot._generate_insights`: trivial questions are answered
with canned insights; otherwise the language model is called and any failure
falls back to an empty/neutral insight. -/
def ModernDataChatbot.generate_insights (env : Env) (question : String)
    (results : List Row) : DataInsight :=
  let ql := pyLower question
  let is_trivial := trivial_patterns.any (fun p => strIn (pyLower p) ql)
  if is_trivial && (strIn "chatgpt" ql || strIn "gpt" ql) then
    insightIdentity
  else if is_trivial && (["hola", "hello", "hi", "buenos días"].any (fun g => strIn g ql)) then
    insightGreeting
  else
    match env.llmInsight question results with
    | Except.ok d => d
    | Except.error _ =>
      { key_finding := "Unable to generate insights",
        supporting_metrics := [], recommendations := [], related_questions := [] }

/-- The placeholder result row substituted when no SQL execution is
required. -/
def placeholderRow : Row :=
  [("message", PyVal.str "No SQL execution required"),
   ("type", PyVal.str "meta_response")]

/-- The `insights` sub-dict of the response. -/
def insightsDict (ins : DataInsight) : PyVal :=
  PyVal.dict
    [("key_finding", PyVal.str ins.key_finding),
     ("supporting_metrics", PyVal.list (ins.supporting_metrics.map PyVal.str)),
     ("recommendations", PyVal.list (ins.recommendations.map PyVal.str)),
     ("related_questions", PyVal.list (ins.related_questions.map PyVal.str))]

/-- `ModernDataChatbot.ask`, the pipeline entry point.

Fidelity notes against the source:
* a missing `session_id` is replaced by a fresh uuid;
* step 0 (`validate_follow_up_question`) only feeds a debug print, so it has
  no effect here;
* on a cache hit the response is rebuilt from the stored entry and carries
  only the keys `question / answer / data / insights / sql_used / cached /
  execution_time`;
* on a miss, SQL is executed only when `requires_execution` is true,
  otherwise `placeholderRow` is substituted; insights are generated over the
  (possibly placeholder) results; the response is stored in the cache and a
  turn is appended to session memory;
* the source stores `response` in the cache before adding the `session_id`
  key, but it stores the dict by reference and then mutates it, so the cached
  copy does contain `session_id`; the model stores the final dict. -/
def ModernDataChatbot.ask (env : Env) (st : ChatbotState) (question : String)
    (session_id : Option String) (now : Nat) : Except String AskOutcome :=
  let sid := session_id.getD env.newUuid
  match SemanticCache.get_similar_query env st.cache question with
  | Except.error e => Except.error e
  | Except.ok (some ke, cache1) =>
    (match pyGet ke.2.results "answer", pyGet ke.2.results "data",
           pyGet ke.2.results "insights" with
     | Except.ok ans, Except.ok dat, Except.ok ins =>
       Except.ok
         { response :=
             [("question", PyVal.str question),
              ("answer", ans),
              ("data", dat),
              ("insights", ins),
              ("sql_used", PyVal.str ke.2.sql_query),
              ("cached", PyVal.bool true),
              ("execution_time", PyVal.num env.elapsedTime)],
           state := { st with cache := cache1 },
           executedSql := none }
     | Except.error e, _, _ => Except.error e
     | _, Except.error e, _ => Except.error e
     | _, _, Except.error e => Except.error e)
  | Except.ok (none, cache1) =>
    let sql_query := ModernDataChatbot.generate_sql_with_structured_output env st.memory question sid
    let results :=
      if sql_query.requires_execution then ModernDataChatbot.execute_query env sql_query.sql
      else [placeholderRow]
    let insights := ModernDataChatbot.generate_insights env question results
    let answer := insights.key_finding ++ "\n\n**Business Context:** " ++ sql_query.business_context
    let response : Resp :=
      [("question", PyVal.str question),
       ("answer", PyVal.str answer),
       ("data", PyVal.list (results.map PyVal.dict)),
       ("insights", insightsDict insights),
       ("sql_used", PyVal.str sql_query.sql),
       ("sql_executed", PyVal.bool sql_query.requires_execution),
       ("reasoning", PyVal.str sql_query.reasoning),
       ("confidence", PyVal.num sql_query.confidence),
       ("cached", PyVal.bool false),
       ("execution_time", PyVal.num env.elapsedTime)]
    let response2 := dictSet response "session_id" (PyVal.str sid)
    match SemanticCache.store_query env cache1 question sql_query.sql response2 now with
    | Except.error e => Except.error e
    | Except.ok cache2 =>
      Except.ok
        { response := response2,
          state := { cache := cache2,
                     memory := SessionMemory.add_turn st.memory sid question answer sql_query.sql now },
          executedSql := if sql_query.requires_execution then some sql_query.sql else none }

-- ===========================================================================
-- Helper lemmas about the dict model
-- ===========================================================================

theorem beq_ne_false {k k' : String} (hk : k' ≠ k) : (k == k') = false :=
  beq_eq_false_iff_ne.mpr (fun h => hk h.symm)

theorem find?_update_of_present (k : String) (v : α) :
    ∀ (d : List (String × α)), (d.find? (fun p => p.1 == k)).isSome →
      (d.map (fun p => if p.1 == k then (k, v) else p)).find? (fun p => p.1 == k)
        = some (k, v) := by
  intro d
  induction d with
  | nil => intro h; simp at h
  | cons a d ih =>
    intro h
    by_cases ha : (a.1 == k) = true
    · rw [List.map_cons, if_pos ha]
      exact List.find?_cons_of_pos (p := fun q : String × α => q.1 == k) _ (beq_self_eq_true k)
    · rw [List.find?_cons_of_neg (p := fun q : String × α => q.1 == k) _ ha] at h
      rw [List.map_cons, if_neg ha, List.find?_cons_of_neg (p := fun q : String × α => q.1 == k) _ ha]
      exact ih h

theorem find?_append_single_none (k : String) (v : α) (d : List (String × α))
    (h : d.find? (fun p => p.1 == k) = none) :
    (d ++ [(k, v)]).find? (fun p => p.1 == k) = some (k, v) := by
  rw [List.find?_append, h]
  have h1 : ([(k, v)] : List (String × α)).find? (fun p => p.1 == k) = some (k, v) :=
    List.find?_cons_of_pos (p := fun q : String × α => q.1 == k) _ (beq_self_eq_true k)
  rw [h1]
  rfl

theorem dictGet_dictSet_self (d : List (String × α)) (k : String) (v : α) :
    dictGet (dictSet d k v) k = some v := by
  unfold dictSet
  by_cases h : (d.find? (fun p => p.1 == k)).isSome
  · rw [if_pos h]
    unfold dictGet
    rw [find?_update_of_present k v d h]
    rfl
  · rw [if_neg h]
    unfold dictGet
    rw [find?_append_single_none k v d (Option.not_isSome_iff_eq_none.mp h)]
    rfl

theorem find?_update_ne (k k' : String) (v : α) (hk : k' ≠ k) :
    ∀ (d : List (String × α)),
      (d.map (fun p => if p.1 == k then (k, v) else p)).find? (fun p => p.1 == k')
        = d.find? (fun p => p.1 == k') := by
  intro d
  induction d with
  | nil => rfl
  | cons a d ih =>
    by_cases ha : (a.1 == k) = true
    · have ha1 : a.1 = k := eq_of_beq ha
      have ha' : ¬ ((a.1 == k') = true) := by
        rw [ha1, beq_ne_false hk]; simp
      have hkv : ¬ ((((k, v) : String × α).1 == k') = true) := by
        show ¬ ((k == k') = true)
        rw [beq_ne_false hk]; simp
      rw [List.map_cons, if_pos ha, List.find?_cons_of_neg (p := fun q : String × α => q.1 == k') _ hkv,
          List.find?_cons_of_neg (p := fun q : String × α => q.1 == k') _ ha', ih]
    · by_cases ha' : (a.1 == k') = true
      · rw [List.map_cons, if_neg ha, List.find?_cons_of_pos (p := fun q : String × α => q.1 == k') _ ha',
            List.find?_cons_of_pos (p := fun q : String × α => q.1 == k') _ ha']
      · rw [List.map_cons, if_neg ha, List.find?_cons_of_neg (p := fun q : String × α => q.1 == k') _ ha',
            List.find?_cons_of_neg (p := fun q : String × α => q.1 == k') _ ha', ih]

theorem find?_append_single_ne (k k' : String) (v : α) (hk : k' ≠ k)
    (d : List (String × α)) :
    (d ++ [(k, v)]).find? (fun p => p.1 == k') = d.find? (fun p => p.1 == k') := by
  rw [List.find?_append]
  have hkv : ¬ ((((k, v) : String × α).1 == k') = true) := by
    show ¬ ((k == k') = true)
    rw [beq_ne_false hk]; simp
  have h1 : ([(k, v)] : List (String × α)).find? (fun p => p.1 == k') = none := by
    rw [List.find?_cons_of_neg (p := fun q : String × α => q.1 == k') _ hkv]; rfl
  rw [h1]
  cases d.find? (fun p => p.1 == k') <;> rfl

theorem dictGet_dictSet_ne (d : List (String × α)) (k k' : String) (v : α)
    (hk : k' ≠ k) : dictGet (dictSet d k v) k' = dictGet d k' := by
  unfold dictSet dictGet
  by_cases h : (d.find? (fun p => p.1 == k)).isSome
  · rw [if_pos h, find?_update_ne k k' v hk d]
  · rw [if_neg h, find?_append_single_ne k k' v hk d]

theorem find?_isSome_of_dictGet (d : List (String × α)) (k : String) (v : α)
    (h : dictGet d k = some v) : (d.find? (fun p => p.1 == k)).isSome := by
  unfold dictGet at h
  cases hf : d.find? (fun p => p.1 == k) with
  | none => rw [hf] at h; simp at h
  | some p => simp

theorem length_dictSet_of_present (d : List (String × α)) (k : String) (v : α)
    (h : (d.find? (fun p => p.1 == k)).isSome) :
    (dictSet d k v).length = d.length := by
  unfold dictSet
  rw [if_pos h, List.length_map]

-- ===========================================================================
-- Characterization of the best-match loop of `get_similar_query`
-- ===========================================================================

/-- Full description of the `(best_match, best_similarity)` fold: starting
from any state, either no element beats the running state (the state is
returned and every element has similarity at most the running best or at most
the threshold), or the final match is some element of the list that exceeds
both, is strictly greater than every earlier qualifying element, and at least
as great as every later qualifying element. -/
theorem simFold_spec (nrm : List ℚ → ℚ) (t : ℚ) (qe : List ℚ) :
    ∀ (l : List (String × CacheEntry)) (m : Option (String × CacheEntry)) (b : ℚ),
      (l.foldl (simStep nrm t qe) (m, b) = (m, b) ∧
        ∀ y ∈ l, simOf nrm qe y.2 ≤ b ∨ simOf nrm qe y.2 ≤ t) ∨
      (∃ l₁ x l₂, l = l₁ ++ x :: l₂ ∧
        l.foldl (simStep nrm t qe) (m, b) = (some x, simOf nrm qe x.2) ∧
        simOf nrm qe x.2 > b ∧ simOf nrm qe x.2 > t ∧
        (∀ y ∈ l₁, simOf nrm qe y.2 < simOf nrm qe x.2 ∨ simOf nrm qe y.2 ≤ t) ∧
        (∀ y ∈ l₂, simOf nrm qe y.2 ≤ simOf nrm qe x.2 ∨ simOf nrm qe y.2 ≤ t)) := by
  intro l
  induction l with
  | nil =>
    intro m b
    exact Or.inl ⟨rfl, by simp⟩
  | cons p l ih =>
    intro m b
    by_cases h : simOf nrm qe p.2 > b ∧ simOf nrm qe p.2 > t
    · have hstep : simStep nrm t qe (m, b) p = (some p, simOf nrm qe p.2) := by
        simp only [simStep]
        rw [if_pos h]
      rw [List.foldl_cons, hstep]
      rcases ih (some p) (simOf nrm qe p.2) with ⟨heq, hall⟩ | ⟨l₁, x, l₂, hdec, heq, hx1, hx2, h1, h2⟩
      · exact Or.inr ⟨[], p, l, rfl, heq, h.1, h.2, by simp, hall⟩
      · refine Or.inr ⟨p :: l₁, x, l₂, by rw [hdec]; rfl, heq, lt_trans h.1 hx1, hx2, ?_, h2⟩
        intro y hy
        rcases List.mem_cons.1 hy with rfl | hy'
        · exact Or.inl hx1
        · exact h1 y hy'
    · have hp : simOf nrm qe p.2 ≤ b ∨ simOf nrm qe p.2 ≤ t := by
        rcases not_and_or.mp h with h' | h'
        · exact Or.inl (not_lt.mp h')
        · exact Or.inr (not_lt.mp h')
      have hstep : simStep nrm t qe (m, b) p = (m, b) := by
        simp only [simStep]
        rw [if_neg h]
      rw [List.foldl_cons, hstep]
      rcases ih m b with ⟨heq, hall⟩ | ⟨l₁, x, l₂, hdec, heq, hx1, hx2, h1, h2⟩
      · refine Or.inl ⟨heq, ?_⟩
        intro y hy
        rcases List.mem_cons.1 hy with rfl | hy'
        · exact hp
        · exact hall y hy'
      · refine Or.inr ⟨p :: l₁, x, l₂, by rw [hdec]; rfl, heq, hx1, hx2, ?_, h2⟩
        intro y hy
        rcases List.mem_cons.1 hy with rfl | hy'
        · rcases hp with h' | h'
          · exact Or.inl (lt_of_le_of_lt h' hx1)
          · exact Or.inr h'
        · exact h1 y hy'

-- ===========================================================================
-- Helper lemmas for session-memory retention
-- ===========================================================================

/-- Taking the last `m` elements is unaffected by material dropped from the
front, as long as at least `m` elements were kept. -/
theorem myLast_stable (m : Nat) (xs ts : List α) (h : m ≤ xs.length) :
    (xs.drop (xs.length - m) ++ ts).drop ((xs.drop (xs.length - m) ++ ts).length - m)
      = (xs ++ ts).drop ((xs ++ ts).length - m) := by
  rw [List.drop_append_eq_append_drop, List.drop_append_eq_append_drop, List.drop_drop]
  have h1 : xs.length - m + ((xs.drop (xs.length - m) ++ ts).length - m)
      = (xs ++ ts).length - m := by
    simp only [List.length_append, List.length_drop]
    omega
  have h2 : (xs.drop (xs.length - m) ++ ts).length - m - (xs.drop (xs.length - m)).length
      = (xs ++ ts).length - m - xs.length := by
    simp only [List.length_append, List.length_drop]
    omega
  rw [h1, h2]

/-- Folding `turnStep` from any state within the bound keeps exactly the last
`maxT` turns of the full history (positive `maxT`). -/
theorem foldl_turnStep_myLast (maxT : Nat) (h : 0 < maxT) :
    ∀ (ts cur : List ConversationTurn), cur.length ≤ maxT →
      ts.foldl (turnStep maxT) cur = (cur ++ ts).drop ((cur ++ ts).length - maxT) := by
  intro ts
  induction ts with
  | nil =>
    intro cur hcur
    simp only [List.foldl_nil, List.append_nil]
    rw [Nat.sub_eq_zero_of_le hcur, List.drop_zero]
  | cons t ts ih =>
    intro cur hcur
    rw [List.foldl_cons]
    by_cases hlen : (cur ++ [t]).length > maxT
    · have hstep : turnStep maxT cur t
          = (cur ++ [t]).drop ((cur ++ [t]).length - maxT) := by
        simp only [turnStep]
        rw [if_pos hlen]
        simp only [pySliceLast]
        rw [if_neg (Nat.pos_iff_ne_zero.mp h)]
      have hm : maxT ≤ (cur ++ [t]).length := le_of_lt hlen
      have hlen2 : (turnStep maxT cur t).length ≤ maxT := by
        rw [hstep, List.length_drop]
        omega
      rw [ih _ hlen2, hstep, myLast_stable maxT (cur ++ [t]) ts hm]
      have hre : (cur ++ [t]) ++ ts = cur ++ t :: ts := by simp
      rw [hre]
    · have hstep : turnStep maxT cur t = cur ++ [t] := by
        simp only [turnStep]
        rw [if_neg hlen]
      have hlen2 : (cur ++ [t]).length ≤ maxT := not_lt.mp hlen
      rw [hstep, ih _ hlen2]
      have hre : (cur ++ [t]) ++ ts = cur ++ t :: ts := by simp
      rw [hre]

/-- The turn list a session currently holds. -/
def sessionTurns (m : SessionMemory) (sid : String) : List ConversationTurn :=
  (dictGet m.sessions sid).getD []

theorem sessionTurns_add_turn_self (m : SessionMemory) (sid q a s : String) (now : Nat) :
    sessionTurns (m.add_turn sid q a s now) sid
      = turnStep m.max_turns (sessionTurns m sid) ⟨q, a, s, now, sid⟩ := by
  unfold sessionTurns SessionMemory.add_turn
  rw [dictGet_dictSet_self]
  rfl

theorem add_turn_max_turns (m : SessionMemory) (sid q a s : String) (now : Nat) :
    (m.add_turn sid q a s now).max_turns = m.max_turns := rfl

-- ===========================================================================
-- Support lemmas to evaluate `get_similar_query` from the fold result
-- ===========================================================================

theorem get_similar_query_of_fold_none (env : Env) (c : SemanticCache) (q : String)
    (qe : List ℚ) (hembed : env.embed q = Except.ok qe)
    (hfold : c.cache.foldl (simStep env.nrm c.similarity_threshold qe) (none, 0) = (none, 0)) :
    SemanticCache.get_similar_query env c q = Except.ok (none, c) := by
  unfold SemanticCache.get_similar_query
  rw [hembed]
  simp only [hfold]

theorem get_similar_query_of_fold_some (env : Env) (c : SemanticCache) (q : String)
    (qe : List ℚ) (x : String × CacheEntry) (r : ℚ) (hembed : env.embed q = Except.ok qe)
    (hfold : c.cache.foldl (simStep env.nrm c.similarity_threshold qe) (none, 0) = (some x, r)) :
    SemanticCache.get_similar_query env c q
      = Except.ok (some (x.1, { x.2 with hit_count := x.2.hit_count + 1 }),
          { c with cache := dictSet c.cache x.1 { x.2 with hit_count := x.2.hit_count + 1 } }) := by
  unfold SemanticCache.get_similar_query
  rw [hembed]
  simp only [hfold]

-- ===========================================================================
-- Claims C3 and C4: semantic-cache lookup
-- ===========================================================================

/-- Claim C3: for every cache state and question, `get_similar_query` returns
the stored entry of highest cosine similarity among those strictly above the
threshold (hit count incremented): every earlier entry is either
non-qualifying or strictly less similar and every later entry is either
non-qualifying or no more similar, so ties go to the first-encountered
entry in iteration order.  It returns `none` exactly when no entry's
similarity strictly exceeds the threshold — in particular on an empty cache,
and when a similarity equals the threshold exactly. -/
theorem c3_cache_lookup_best_match (env : Env) (c : SemanticCache) (q : String)
    (qe : List ℚ) (ht : 0 ≤ c.similarity_threshold)
    (hembed : env.embed q = Except.ok qe) :
    (SemanticCache.get_similar_query env c q = Except.ok (none, c) ↔
      ∀ p ∈ c.cache, simOf env.nrm qe p.2 ≤ c.similarity_threshold) ∧
    ((∃ p ∈ c.cache, simOf env.nrm qe p.2 > c.similarity_threshold) →
      ∃ k e c', SemanticCache.get_similar_query env c q = Except.ok (some (k, e), c')) ∧
    (∀ k e c', SemanticCache.get_similar_query env c q = Except.ok (some (k, e), c') →
      ∃ l₁ e₀ l₂, c.cache = l₁ ++ (k, e₀) :: l₂ ∧
        e = { e₀ with hit_count := e₀.hit_count + 1 } ∧
        simOf env.nrm qe e₀ > c.similarity_threshold ∧
        (∀ y ∈ l₁, simOf env.nrm qe y.2 < simOf env.nrm qe e₀ ∨
          simOf env.nrm qe y.2 ≤ c.similarity_threshold) ∧
        (∀ y ∈ l₂, simOf env.nrm qe y.2 ≤ simOf env.nrm qe e₀ ∨
          simOf env.nrm qe y.2 ≤ c.similarity_threshold)) := by
  rcases simFold_spec env.nrm c.similarity_threshold qe c.cache none 0 with
    ⟨heq, hall⟩ | ⟨l₁, x, l₂, hdec, heq, hx1, hx2, h1, h2⟩
  · have hres := get_similar_query_of_fold_none env c q qe hembed heq
    refine ⟨iff_of_true hres ?_, ?_, ?_⟩
    · intro p hp
      rcases hall p hp with h' | h'
      · exact le_trans h' ht
      · exact h'
    · rintro ⟨p, hp, hgt⟩
      rcases hall p hp with h' | h'
      · exact absurd hgt (not_lt.mpr (le_trans h' ht))
      · exact absurd hgt (not_lt.mpr h')
    · intro k e c' hk
      rw [hres] at hk
      simp at hk
  · have hres := get_similar_query_of_fold_some env c q qe x _ hembed heq
    refine ⟨?_, ?_, ?_⟩
    · refine iff_of_false ?_ ?_
      · rw [hres]
        simp
      · intro hle
        have hx : x ∈ c.cache := by
          rw [hdec]
          exact List.mem_append_right _ (List.mem_cons_self _ _)
        exact absurd hx2 (not_lt.mpr (hle x hx))
    · intro _
      exact ⟨x.1, _, _, hres⟩
    · intro k e c' hk
      rw [hres] at hk
      have hinj := Except.ok.inj hk
      have hps : (some (x.1, { x.2 with hit_count := x.2.hit_count + 1 })) = some (k, e) :=
        congrArg Prod.fst hinj
      have hpe : (x.1, { x.2 with hit_count := x.2.hit_count + 1 }) = (k, e) :=
        Option.some.inj hps
      have hk1 : x.1 = k := congrArg Prod.fst hpe
      have he : { x.2 with hit_count := x.2.hit_count + 1 } = e := congrArg Prod.snd hpe
      refine ⟨l₁, x.2, l₂, ?_, he.symm, hx2, h1, h2⟩
      rw [hdec, ← hk1, Prod.mk.eta]

/-- Concrete environment for witnesses: the external services answer
deterministically and successfully. -/
def envW : Env :=
  { embed := fun _ => Except.ok [1, 0],
    nrm := fun _ => 1,
    md5 := fun s => s,
    llm := fun _ => Except.ok
      { sql := "SELECT region FROM tiendas",
        reasoning := "group by region", business_context := "regional view",
        confidence := 8 / 10, requires_execution := true },
    llmInsight := fun _ _ => Except.ok
      { key_finding := "finding", supporting_metrics := [],
        recommendations := [], related_questions := [] },
    db := fun _ => Except.ok [],
    newUuid := "uuid-1",
    elapsedTime := 0 }

/-- A cache entry whose embedding coincides with the witness question. -/
def entryW1 : CacheEntry :=
  { query_embedding := [1, 0], sql_query := "SELECT 1",
    results := [("answer", PyVal.str "a"), ("data", PyVal.list []),
                ("insights", PyVal.dict [])],
    timestamp := 0, hit_count := 0 }

/-- Witness cache for the lookup claims: one perfectly matching entry,
threshold 0.85. -/
def cacheW3 : SemanticCache :=
  { cache := [("k1", entryW1)], similarity_threshold := 85 / 100 }

/-- An empty witness cache with the default 0.85 threshold. -/
def cacheE : SemanticCache := { cache := [], similarity_threshold := 85 / 100 }

theorem c3_cache_lookup_best_match_witness :
    SemanticCache.get_similar_query envW cacheE "ventas" = Except.ok (none, cacheE) := by
  have h := c3_cache_lookup_best_match envW cacheE "ventas" [1, 0] (by norm_num [cacheE]) rfl
  exact h.1.mpr (by simp [cacheE])

/-- Claim C4: a zero- (or near-zero-) magnitude embedding never causes an
undefined lookup: with the modelled division convention (mirroring that an
IEEE `0/0 = NaN` similarity compares `false` against a non-negative
threshold and the running best), a zero-magnitude question embedding gives a
guaranteed miss, and the entry a hit returns always has a non-zero-magnitude
embedding; `get_similar_query` is total, so the lookup result is always
well defined. -/
theorem c4_zero_magnitude_is_miss (env : Env) (c : SemanticCache) (q : String)
    (qe : List ℚ) (ht : 0 ≤ c.similarity_threshold)
    (hembed : env.embed q = Except.ok qe) :
    (env.nrm qe = 0 → SemanticCache.get_similar_query env c q = Except.ok (none, c)) ∧
    (∀ k e c', SemanticCache.get_similar_query env c q = Except.ok (some (k, e), c') →
      ∃ e₀, (k, e₀) ∈ c.cache ∧ e = { e₀ with hit_count := e₀.hit_count + 1 } ∧
        env.nrm qe ≠ 0 ∧ env.nrm e₀.query_embedding ≠ 0) := by
  rcases simFold_spec env.nrm c.similarity_threshold qe c.cache none 0 with
    ⟨heq, _⟩ | ⟨l₁, x, l₂, hdec, heq, _, hx2, _, _⟩
  · have hres := get_similar_query_of_fold_none env c q qe hembed heq
    refine ⟨fun _ => hres, ?_⟩
    intro k e c' hk
    rw [hres] at hk
    simp at hk
  · have hres := get_similar_query_of_fold_some env c q qe x _ hembed heq
    have hnq : env.nrm qe ≠ 0 := by
      intro h0
      have : simOf env.nrm qe x.2 = 0 := by
        simp [simOf, h0]
      rw [this] at hx2
      exact absurd hx2 (not_lt.mpr ht)
    have hne : env.nrm x.2.query_embedding ≠ 0 := by
      intro h0
      have : simOf env.nrm qe x.2 = 0 := by
        simp [simOf, h0]
      rw [this] at hx2
      exact absurd hx2 (not_lt.mpr ht)
    refine ⟨?_, ?_⟩
    · intro h0
      exact absurd h0 hnq
    · intro k e c' hk
      rw [hres] at hk
      have hinj := Except.ok.inj hk
      have hpe : (x.1, { x.2 with hit_count := x.2.hit_count + 1 }) = (k, e) :=
        Option.some.inj (congrArg Prod.fst hinj)
      have hk1 : x.1 = k := congrArg Prod.fst hpe
      have he : { x.2 with hit_count := x.2.hit_count + 1 } = e := congrArg Prod.snd hpe
      refine ⟨x.2, ?_, he.symm, hnq, hne⟩
      rw [← hk1, Prod.mk.eta, hdec]
      exact List.mem_append_right _ (List.mem_cons_self _ _)

/-- Witness environment whose embedding service returns the zero vector
(whose norm is 0). -/
def envW0 : Env :=
  { envW with
    embed := fun _ => Except.ok [0, 0],
    nrm := fun v => if v = [0, 0] then 0 else 1 }

theorem c4_zero_magnitude_is_miss_witness :
    SemanticCache.get_similar_query envW0 cacheW3 "ventas" = Except.ok (none, cacheW3) :=
  (c4_zero_magnitude_is_miss envW0 cacheW3 "ventas" [0, 0] (by norm_num [cacheW3]) rfl).1 rfl

-- ===========================================================================
-- Evaluation helpers for `ask`
-- ===========================================================================

/-- An embedding failure at lookup propagates out of `ask` unchanged. -/
theorem ask_embed_error (env : Env) (st : ChatbotState) (q : String)
    (sid0 : Option String) (now : Nat) (msg : String)
    (hembed : env.embed q = Except.error msg) :
    ModernDataChatbot.ask env st q sid0 now = Except.error msg := by
  unfold ModernDataChatbot.ask SemanticCache.get_similar_query
  rw [hembed]

/-- The fully evaluated cache-miss result of `ask` (a derived description of
the miss branch, used to state the pipeline theorems). -/
def askMissResult (env : Env) (st : ChatbotState) (q sid : String) (now : Nat)
    (c₁ : SemanticCache) (qe : List ℚ) : AskOutcome :=
  let r := ModernDataChatbot.generate_sql_with_structured_output env st.memory q sid
  let results :=
    if r.requires_execution then ModernDataChatbot.execute_query env r.sql
    else [placeholderRow]
  let insights := ModernDataChatbot.generate_insights env q results
  let answer := insights.key_finding ++ "\n\n**Business Context:** " ++ r.business_context
  let response2 : Resp :=
    [("question", PyVal.str q),
     ("answer", PyVal.str answer),
     ("data", PyVal.list (results.map PyVal.dict)),
     ("insights", insightsDict insights),
     ("sql_used", PyVal.str r.sql),
     ("sql_executed", PyVal.bool r.requires_execution),
     ("reasoning", PyVal.str r.reasoning),
     ("confidence", PyVal.num r.confidence),
     ("cached", PyVal.bool false),
     ("execution_time", PyVal.num env.elapsedTime),
     ("session_id", PyVal.str sid)]
  { response := response2,
    state :=
      { cache :=
          { c₁ with
            cache := dictSet c₁.cache (SemanticCache.query_key env q)
              ⟨qe, r.sql, response2, now, 0⟩ },
        memory := SessionMemory.add_turn st.memory sid q answer r.sql now },
    executedSql := if r.requires_execution then some r.sql else none }

/-- Appending the `session_id` key: it is absent from the freshly built
response, so the dict update is an append. -/
theorem dictSet_session_id (q answer : String) (dt insights sql se rs cf : PyVal)
    (et : PyVal) (v : PyVal) :
    dictSet
      [("question", PyVal.str q), ("answer", PyVal.str answer), ("data", dt),
       ("insights", insights), ("sql_used", sql), ("sql_executed", se),
       ("reasoning", rs), ("confidence", cf), ("cached", PyVal.bool false),
       ("execution_time", et)] "session_id" v
      = [("question", PyVal.str q), ("answer", PyVal.str answer), ("data", dt),
         ("insights", insights), ("sql_used", sql), ("sql_executed", se),
         ("reasoning", rs), ("confidence", cf), ("cached", PyVal.bool false),
         ("execution_time", et), ("session_id", v)] := by
  simp [dictSet]

/-- On a cache miss `ask` completes with the evaluated miss result. -/
theorem ask_miss_eq (env : Env) (st : ChatbotState) (q : String)
    (sid0 : Option String) (now : Nat) (c₁ : SemanticCache) (qe : List ℚ)
    (hembed : env.embed q = Except.ok qe)
    (hmiss : SemanticCache.get_similar_query env st.cache q = Except.ok (none, c₁)) :
    ModernDataChatbot.ask env st q sid0 now
      = Except.ok (askMissResult env st q (sid0.getD env.newUuid) now c₁ qe) := by
  unfold ModernDataChatbot.ask
  rw [hmiss]
  unfold SemanticCache.store_query
  rw [hembed]
  rfl

/-- The rebuilt response of a cache hit. -/
def askHitResult (env : Env) (st : ChatbotState) (q : String)
    (ke : String × CacheEntry) (c₁ : SemanticCache) (ans dat ins : PyVal) : AskOutcome :=
  { response :=
      [("question", PyVal.str q),
       ("answer", ans),
       ("data", dat),
       ("insights", ins),
       ("sql_used", PyVal.str ke.2.sql_query),
       ("cached", PyVal.bool true),
       ("execution_time", PyVal.num env.elapsedTime)],
    state := { st with cache := c₁ },
    executedSql := none }

/-- On a cache hit whose stored response carries the three replayed keys,
`ask` returns the rebuilt hit response. -/
theorem ask_hit_eq (env : Env) (st : ChatbotState) (q : String)
    (sid0 : Option String) (now : Nat) (ke : String × CacheEntry)
    (c₁ : SemanticCache) (ans dat ins : PyVal)
    (hhit : SemanticCache.get_similar_query env st.cache q = Except.ok (some ke, c₁))
    (ha : pyGet ke.2.results "answer" = Except.ok ans)
    (hd : pyGet ke.2.results "data" = Except.ok dat)
    (hi : pyGet ke.2.results "insights" = Except.ok ins) :
    ModernDataChatbot.ask env st q sid0 now
      = Except.ok (askHitResult env st q ke c₁ ans dat ins) := by
  unfold ModernDataChatbot.ask askHitResult
  simp only [hhit, ha, hd, hi]

/-- Inversion of a successful `ask` on a cache hit: the three replayed keys
must have been present, and the outcome is the rebuilt hit response. -/
theorem ask_hit_inversion (env : Env) (st : ChatbotState) (q : String)
    (sid0 : Option String) (now : Nat) (ke : String × CacheEntry)
    (c₁ : SemanticCache) (out : AskOutcome)
    (hhit : SemanticCache.get_similar_query env st.cache q = Except.ok (some ke, c₁))
    (hask : ModernDataChatbot.ask env st q sid0 now = Except.ok out) :
    ∃ ans dat ins,
      pyGet ke.2.results "answer" = Except.ok ans ∧
      pyGet ke.2.results "data" = Except.ok dat ∧
      pyGet ke.2.results "insights" = Except.ok ins ∧
      out = askHitResult env st q ke c₁ ans dat ins := by
  unfold ModernDataChatbot.ask at hask
  simp only [hhit] at hask
  cases hpa : pyGet ke.2.results "answer" with
  | error e =>
    cases hpd : pyGet ke.2.results "data" <;> cases hpi : pyGet ke.2.results "insights" <;>
        simp only [hpa, hpd, hpi] at hask <;> exact Except.noConfusion hask
  | ok ans =>
    cases hpd : pyGet ke.2.results "data" with
    | error e =>
      cases hpi : pyGet ke.2.results "insights" <;> simp only [hpa, hpd, hpi] at hask <;>
        exact Except.noConfusion hask
    | ok dat =>
      cases hpi : pyGet ke.2.results "insights" with
      | error e =>
        simp only [hpa, hpd, hpi] at hask
        exact Except.noConfusion hask
      | ok ins =>
        simp only [hpa, hpd, hpi] at hask
        refine ⟨ans, dat, ins, rfl, rfl, rfl, ?_⟩
        exact (Except.ok.inj hask).symm

-- ===========================================================================
-- Claim C5: embedding failure during lookup
-- ===========================================================================

/-- Environment whose embedding service fails. -/
def envFail : Env :=
  { envW with embed := fun _ => Except.error "embedding service timeout" }

/-- Witness chatbot state: the cache of `cacheW3` plus an empty memory. -/
def stW : ChatbotState :=
  { cache := cacheW3, memory := { sessions := [], max_turns := 10 } }

/-- Claim C5 counterexample: with a failing embedding service, `ask` does not
treat the lookup as a miss and complete the pipeline — it propagates the
embedding error to its caller. -/
theorem c5_counterexample :
    ModernDataChatbot.ask envFail stW "ventas" (some "s1") 0
      = Except.error "embedding service timeout" := rfl

/-- Claim C5 (amended): an embedding-service failure during cache lookup is
not recovered locally: neither `get_similar_query` nor `ask` wraps the
encode call, so the failure propagates out of `ask` as an error and the rest
of the pipeline does not run. -/
theorem c5_embed_failure_propagates (env : Env) (st : ChatbotState) (q : String)
    (sid0 : Option String) (now : Nat) (msg : String)
    (hembed : env.embed q = Except.error msg) :
    ModernDataChatbot.ask env st q sid0 now = Except.error msg :=
  ask_embed_error env st q sid0 now msg hembed

theorem c5_embed_failure_propagates_witness :
    ModernDataChatbot.ask envFail stW "ventas" none 0
      = Except.error "embedding service timeout" :=
  c5_embed_failure_propagates envFail stW "ventas" none 0 "embedding service timeout" rfl

-- ===========================================================================
-- Claim C7: SQL-generation fallback
-- ===========================================================================

/-- Claim C7: whenever the structured-output language-model call fails, the
generation step returns the fixed fallback — sql `SELECT * FROM tiendas
LIMIT 10`, confidence 0.1, reasoning carrying the error text (and the
pydantic default `requires_execution = true`).  The function is total, so
the generation step never raises to `ask`. -/
theorem c7_generation_fallback (env : Env) (mem : SessionMemory) (q sid e : String)
    (hfail : env.llm (llmInputOf mem q sid) = Except.error e) :
    ModernDataChatbot.generate_sql_with_structured_output env mem q sid
      = { sql := "SELECT * FROM tiendas LIMIT 10",
          reasoning := "Error in SQL generation: " ++ e,
          business_context := "Unable to generate proper query",
          confidence := 1 / 10,
          requires_execution := true } := by
  unfold ModernDataChatbot.generate_sql_with_structured_output
  rw [hfail]

/-- Environment whose language model fails on every generation call. -/
def envFailLLM : Env :=
  { envW with llm := fun _ => Except.error "malformed structured output" }

theorem c7_generation_fallback_witness :
    ModernDataChatbot.generate_sql_with_structured_output envFailLLM
        { sessions := [], max_turns := 10 } "hola" "s1"
      = { sql := "SELECT * FROM tiendas LIMIT 10",
          reasoning := "Error in SQL generation: malformed structured output",
          business_context := "Unable to generate proper query",
          confidence := 1 / 10,
          requires_execution := true } :=
  c7_generation_fallback envFailLLM { sessions := [], max_turns := 10 } "hola" "s1"
    "malformed structured output" rfl

-- ===========================================================================
-- Claim C8: session-memory retention
-- ===========================================================================

/-- Replay a list of `add_turn` inputs `(question, answer, sql, time)` for
one session. -/
def addTurns (m : SessionMemory) (sid : String)
    (inputs : List (String × String × String × Nat)) : SessionMemory :=
  inputs.foldl (fun m i => m.add_turn sid i.1 i.2.1 i.2.2.1 i.2.2.2) m

/-- The turn an `add_turn` input becomes. -/
def mkTurn (sid : String) (i : String × String × String × Nat) : ConversationTurn :=
  ⟨i.1, i.2.1, i.2.2.1, i.2.2.2, sid⟩

/-- A fresh memory with the given retention bound. -/
def emptyMemory (maxT : Nat) : SessionMemory := { sessions := [], max_turns := maxT }

theorem addTurns_sessionTurns (sid : String) :
    ∀ (inputs : List (String × String × String × Nat)) (m : SessionMemory),
      sessionTurns (addTurns m sid inputs) sid
        = (inputs.map (mkTurn sid)).foldl (turnStep m.max_turns) (sessionTurns m sid) := by
  intro inputs
  induction inputs with
  | nil => intro m; rfl
  | cons i inputs ih =>
    intro m
    have h1 : addTurns m sid (i :: inputs)
        = addTurns (m.add_turn sid i.1 i.2.1 i.2.2.1 i.2.2.2) sid inputs := rfl
    rw [h1, ih, add_turn_max_turns, sessionTurns_add_turn_self]
    rfl

theorem turnStep_length_le (maxT : Nat) (h : 0 < maxT)
    (ts : List ConversationTurn) (t : ConversationTurn) :
    (turnStep maxT ts t).length ≤ maxT := by
  show (if (ts ++ [t]).length > maxT then pySliceLast (ts ++ [t]) maxT
        else (ts ++ [t])).length ≤ maxT
  by_cases hgt : (ts ++ [t]).length > maxT
  · rw [if_pos hgt]
    show ((if maxT = 0 then (ts ++ [t])
           else (ts ++ [t]).drop ((ts ++ [t]).length - maxT))).length ≤ maxT
    rw [if_neg (Nat.pos_iff_ne_zero.mp h), List.length_drop]
    omega
  · rw [if_neg hgt]
    exact not_lt.mp hgt

/-- Claim C8: with a positive retention bound, (i) one `add_turn` always
leaves the session's stored list with length at most `max_turns`, so the
bound is invariant, and (ii) replaying `max_turns + k` inserts from an empty
memory leaves exactly the most recent `max_turns` turns, in arrival order. -/
theorem c8_session_retention (maxT : Nat) (h : 0 < maxT) :
    (∀ (m : SessionMemory) (sid q a s : String) (now : Nat),
        m.max_turns = maxT →
        (sessionTurns (m.add_turn sid q a s now) sid).length ≤ maxT) ∧
    (∀ (sid : String) (inputs : List (String × String × String × Nat)) (k : Nat),
        inputs.length = maxT + k →
        sessionTurns (addTurns (emptyMemory maxT) sid inputs) sid
          = (inputs.map (mkTurn sid)).drop k) := by
  constructor
  · intro m sid q a s now hmax
    rw [sessionTurns_add_turn_self, hmax]
    exact turnStep_length_le maxT h _ _
  · intro sid inputs k hlen
    rw [addTurns_sessionTurns sid inputs (emptyMemory maxT)]
    have h0 : sessionTurns (emptyMemory maxT) sid = [] := rfl
    have hmx : (emptyMemory maxT).max_turns = maxT := rfl
    rw [h0, hmx]
    rw [foldl_turnStep_myLast maxT h (inputs.map (mkTurn sid)) [] (by simp)]
    simp only [List.nil_append, List.length_map, hlen]
    congr 1
    omega

theorem c8_session_retention_witness :
    sessionTurns (addTurns (emptyMemory 2) "s"
        [("q1", "a1", "s1", 1), ("q2", "a2", "s2", 2), ("q3", "a3", "s3", 3)]) "s"
      = [⟨"q2", "a2", "s2", 2, "s"⟩, ⟨"q3", "a3", "s3", 3, "s"⟩] := by
  have h := (c8_session_retention 2 (by decide)).2 "s"
    [("q1", "a1", "s1", 1), ("q2", "a2", "s2", 2), ("q3", "a3", "s3", 3)] 1 rfl
  rw [h]
  rfl

-- ===========================================================================
-- Claim C10: store keying and replacement
-- ===========================================================================

/-- Claim C10: `store_query` keys the cache by the hash of the lowercased,
stripped question.  When two stores normalize to the same text, the second
replaces the first entry in place — fresh hit count 0, fresh timestamp and
payload, total entry count unchanged, every other key untouched.  When the
normalized texts hash to different keys, both entries are present afterwards
and the first is unaltered by the second store. -/
theorem c10_store_replacement (env : Env) (c : SemanticCache)
    (q1 q2 sql1 sql2 : String) (r1 r2 : Resp) (t1 t2 : Nat) (v1 v2 : List ℚ)
    (c1 c2 : SemanticCache)
    (he1 : env.embed q1 = Except.ok v1) (he2 : env.embed q2 = Except.ok v2)
    (hs1 : SemanticCache.store_query env c q1 sql1 r1 t1 = Except.ok c1)
    (hs2 : SemanticCache.store_query env c1 q2 sql2 r2 t2 = Except.ok c2) :
    (pyStrip (pyLower q1) = pyStrip (pyLower q2) →
      dictGet c2.cache (SemanticCache.query_key env q2) = some ⟨v2, sql2, r2, t2, 0⟩ ∧
      c2.cache.length = c1.cache.length ∧
      (∀ k, k ≠ SemanticCache.query_key env q2 →
        dictGet c2.cache k = dictGet c1.cache k)) ∧
    (SemanticCache.query_key env q1 ≠ SemanticCache.query_key env q2 →
      dictGet c2.cache (SemanticCache.query_key env q1) = some ⟨v1, sql1, r1, t1, 0⟩ ∧
      dictGet c2.cache (SemanticCache.query_key env q2) = some ⟨v2, sql2, r2, t2, 0⟩) := by
  unfold SemanticCache.store_query at hs1 hs2
  rw [he1] at hs1
  rw [he2] at hs2
  have hc1 : c1 = { c with
      cache := dictSet c.cache (SemanticCache.query_key env q1) ⟨v1, sql1, r1, t1, 0⟩ } :=
    (Except.ok.inj hs1).symm
  have hc2 : c2 = { c1 with
      cache := dictSet c1.cache (SemanticCache.query_key env q2) ⟨v2, sql2, r2, t2, 0⟩ } :=
    (Except.ok.inj hs2).symm
  constructor
  · intro hn
    have hkk : SemanticCache.query_key env q1 = SemanticCache.query_key env q2 := by
      unfold SemanticCache.query_key
      rw [hn]
    refine ⟨?_, ?_, ?_⟩
    · rw [hc2]
      exact dictGet_dictSet_self _ _ _
    · rw [hc2]
      refine length_dictSet_of_present _ _ _ ?_
      refine find?_isSome_of_dictGet c1.cache (SemanticCache.query_key env q2)
        ⟨v1, sql1, r1, t1, 0⟩ ?_
      rw [hc1, ← hkk]
      exact dictGet_dictSet_self _ _ _
    · intro k hk
      rw [hc2]
      exact dictGet_dictSet_ne _ _ _ _ hk
  · intro hne
    refine ⟨?_, ?_⟩
    · rw [hc2]
      rw [dictGet_dictSet_ne _ _ _ _ hne]
      rw [hc1]
      exact dictGet_dictSet_self _ _ _
    · rw [hc2]
      exact dictGet_dictSet_self _ _ _

/-- First store of the C10 witness: key is the normalized text (identity
hash in `envW`). -/
def c10c1 : SemanticCache :=
  { cacheW3 with cache := dictSet cacheW3.cache "hola" ⟨[1, 0], "S1", [], 1, 0⟩ }

/-- Second store of the C10 witness: same normalized text, so the entry is
replaced. -/
def c10c2 : SemanticCache :=
  { c10c1 with cache := dictSet c10c1.cache "hola" ⟨[1, 0], "S2", [], 2, 0⟩ }

theorem c10_store_replacement_witness :
    dictGet c10c2.cache (SemanticCache.query_key envW "hola")
      = some ⟨[1, 0], "S2", [], 2, 0⟩ ∧
    c10c2.cache.length = c10c1.cache.length := by
  have h := (c10_store_replacement envW cacheW3 "Hola " "hola" "S1" "S2" [] [] 1 2
    [1, 0] [1, 0] c10c1 c10c2 rfl rfl rfl rfl).1 (by decide)
  exact ⟨h.1, h.2.1⟩

-- ===========================================================================
-- Claim C6: conditional execution on the non-cached path
-- ===========================================================================

/-- Claim C6: on the non-cached path, `_execute_query` is invoked if and only
if the generation result's `requires_execution` flag is true (witnessed by
the `executedSql` instrumentation); when the flag is false no SQL runs, the
response's data field is the single substituted placeholder row, and
insight synthesis still runs over that placeholder. -/
theorem c6_execute_iff_required (env : Env) (st : ChatbotState) (q : String)
    (sid0 : Option String) (now : Nat) (c₁ : SemanticCache) (qe : List ℚ) (r : SQLQuery)
    (hembed : env.embed q = Except.ok qe)
    (hmiss : SemanticCache.get_similar_query env st.cache q = Except.ok (none, c₁))
    (hr : ModernDataChatbot.generate_sql_with_structured_output env st.memory q
      (sid0.getD env.newUuid) = r) :
    ∃ out, ModernDataChatbot.ask env st q sid0 now = Except.ok out ∧
      out.executedSql = (if r.requires_execution then some r.sql else none) ∧
      dictGet out.response "data" = some (PyVal.list
        ((if r.requires_execution then ModernDataChatbot.execute_query env r.sql
          else [placeholderRow]).map PyVal.dict)) ∧
      dictGet out.response "insights" = some (insightsDict
        (ModernDataChatbot.generate_insights env q
          (if r.requires_execution then ModernDataChatbot.execute_query env r.sql
           else [placeholderRow]))) ∧
      (r.requires_execution = false →
        out.executedSql = none ∧
        dictGet out.response "data" = some (PyVal.list [PyVal.dict placeholderRow])) := by
  refine ⟨askMissResult env st q (sid0.getD env.newUuid) now c₁ qe,
    ask_miss_eq env st q sid0 now c₁ qe hembed hmiss, ?_, ?_, ?_, ?_⟩
  · simp only [askMissResult, hr]
  · simp only [askMissResult, hr]
    rfl
  · simp only [askMissResult, hr]
    rfl
  · intro hreq
    constructor
    · simp only [askMissResult, hr, hreq]
      rfl
    · simp only [askMissResult, hr, hreq]
      rfl

/-- Generation result of a meta question: no execution required. -/
def rMeta : SQLQuery :=
  { sql := "SELECT 1", reasoning := "meta question", business_context := "no data needed",
    confidence := 3 / 10, requires_execution := false }

/-- Environment whose language model classifies the question as
non-executable. -/
def envMeta : Env := { envW with llm := fun _ => Except.ok rMeta }

/-- Chatbot state with an empty cache and empty memory. -/
def stE : ChatbotState :=
  { cache := { cache := [], similarity_threshold := 85 / 100 },
    memory := { sessions := [], max_turns := 10 } }

theorem c6_execute_iff_required_witness :
    (ModernDataChatbot.ask envMeta stE "hola" (some "s") 0).toOption.map
        (fun o => o.executedSql) = some none := by
  obtain ⟨out, hok, h1, h2, h3, h4⟩ :=
    c6_execute_iff_required envMeta stE "hola" (some "s") 0 stE.cache [1, 0] rMeta rfl rfl rfl
  rw [hok]
  simp only [Except.toOption, Option.map]
  rw [(h4 rfl).1]

-- ===========================================================================
-- Claim C1: the follow-up hallucination guard
-- ===========================================================================

/-- A second question with the referential marker `esa` about a product type
never mentioned before. -/
def qC1 : String := "dame las ventas de esa categoria de producto"

/-- One prior turn about revenue by region. -/
def memC1 : SessionMemory :=
  { sessions := [("s1",
      [⟨"cual es el revenue por region", "answer uno",
        "SELECT region, SUM(revenue) FROM tiendas GROUP BY region", 0, "s1"⟩])],
    max_turns := 10 }

/-- A language-model reply that ignores the prompt's follow-up rule. -/
def rC1 : SQLQuery :=
  { sql := "SELECT tipo_tienda FROM tiendas LIMIT 10",
    reasoning := "references prior product type",
    business_context := "product type view",
    confidence := 9 / 10, requires_execution := true }

def envC1 : Env := { envW with llm := fun _ => Except.ok rC1 }

def stC1 : ChatbotState :=
  { cache := { cache := [], similarity_threshold := 85 / 100 }, memory := memC1 }

/-- Claim C1 counterexample: the session has one prior turn, the question
carries a follow-up marker, the referent (`producto`) was never mentioned —
yet `ask` reports `sql_executed = true` with confidence 0.9, because the
code forwards whatever the language model returns: the guard lives in the
prompt, not in the code. -/
theorem c1_counterexample :
    (SessionMemory.validate_follow_up_question memC1 "s1" qC1).is_follow_up = true ∧
    strIn "producto" (pyLower "cual es el revenue por region") = false ∧
    (ModernDataChatbot.ask envC1 stC1 qC1 (some "s1") 0).toOption.map
        (fun o => (dictGet o.response "sql_executed", dictGet o.response "confidence"))
      = some (some (PyVal.bool true), some (PyVal.num (9 / 10))) := by
  refine ⟨rfl, rfl, rfl⟩

/-- Claim C1 (amended): the response's `sql_executed` and `confidence` are
the generation result's `requires_execution` and `confidence`, forwarded
verbatim; therefore, for a flagged follow-up question on the non-cached
path, the response has `sql_executed = false` and confidence at most 0.2
exactly when the language model obeys the prompt's follow-up rule and
returns a non-executing result with confidence at most 0.2. -/
theorem c1_follow_up_guard (env : Env) (st : ChatbotState) (q : String)
    (sid0 : Option String) (now : Nat) (c₁ : SemanticCache) (qe : List ℚ) (r : SQLQuery)
    (hembed : env.embed q = Except.ok qe)
    (hmiss : SemanticCache.get_similar_query env st.cache q = Except.ok (none, c₁))
    (hfu : (SessionMemory.validate_follow_up_question st.memory
      (sid0.getD env.newUuid) q).is_follow_up = true)
    (hr : ModernDataChatbot.generate_sql_with_structured_output env st.memory q
      (sid0.getD env.newUuid) = r)
    (hexec : r.requires_execution = false)
    (hconf : r.confidence ≤ 1 / 5) :
    ∃ out, ModernDataChatbot.ask env st q sid0 now = Except.ok out ∧
      dictGet out.response "sql_executed" = some (PyVal.bool false) ∧
      dictGet out.response "confidence" = some (PyVal.num r.confidence) ∧
      r.confidence ≤ 1 / 5 := by
  refine ⟨askMissResult env st q (sid0.getD env.newUuid) now c₁ qe,
    ask_miss_eq env st q sid0 now c₁ qe hembed hmiss, ?_, ?_, hconf⟩
  · simp only [askMissResult, hr, hexec]
    rfl
  · simp only [askMissResult, hr]
    rfl

/-- A language-model reply that obeys the follow-up rule. -/
def rGuard : SQLQuery :=
  { sql := "SELECT 1", reasoning := "tema no mencionado antes",
    business_context := "no previous mention",
    confidence := 1 / 10, requires_execution := false }

def envGuard : Env := { envW with llm := fun _ => Except.ok rGuard }

def stGuard : ChatbotState :=
  { cache := { cache := [], similarity_threshold := 85 / 100 }, memory := memC1 }

theorem c1_follow_up_guard_witness :
    (ModernDataChatbot.ask envGuard stGuard qC1 (some "s1") 0).toOption.map
        (fun o => dictGet o.response "sql_executed") = some (some (PyVal.bool false)) := by
  obtain ⟨out, hok, h1, h2, h3⟩ :=
    c1_follow_up_guard envGuard stGuard qC1 (some "s1") 0 stGuard.cache [1, 0] rGuard
      rfl rfl rfl rfl rfl (by norm_num [rGuard])
  rw [hok]
  simp only [Except.toOption, Option.map]
  rw [h1]

-- ===========================================================================
-- Claim C2: response keys on the two paths
-- ===========================================================================

/-- The keys of a cache-miss response, in construction order. -/
def missKeys : List String :=
  ["question", "answer", "data", "insights", "sql_used", "sql_executed",
   "reasoning", "confidence", "cached", "execution_time", "session_id"]

/-- The keys of a cache-hit response, in construction order. -/
def hitKeys : List String :=
  ["question", "answer", "data", "insights", "sql_used", "cached", "execution_time"]

/-- The hit entry after its hit count is bumped. -/
def entryW1h : CacheEntry := { entryW1 with hit_count := 1 }

/-- The evaluated hit outcome of asking `ventas` against `stW`. -/
def outHitW : AskOutcome :=
  askHitResult envW stW "ventas" ("k1", entryW1h)
    { cacheW3 with cache := dictSet cacheW3.cache "k1" entryW1h }
    (PyVal.str "a") (PyVal.list []) (PyVal.dict [])

/-- Evaluating the witness hit: the single stored entry has cosine
similarity 1 with the question embedding, which exceeds the 0.85
threshold. -/
theorem ask_hit_W :
    ModernDataChatbot.ask envW stW "ventas" (some "s1") 0 = Except.ok outHitW := by
  have hfold : List.foldl (simStep envW.nrm cacheW3.similarity_threshold [1, 0])
      (none, 0) cacheW3.cache = (some ("k1", entryW1), 1) := by
    simp only [cacheW3, List.foldl_cons, List.foldl_nil, simStep, simOf, dot, envW, entryW1]
    norm_num
  have hhit := get_similar_query_of_fold_some envW cacheW3 "ventas" [1, 0]
    ("k1", entryW1) 1 rfl hfold
  exact ask_hit_eq envW stW "ventas" (some "s1") 0 ("k1", entryW1h)
    { cacheW3 with cache := dictSet cacheW3.cache "k1" entryW1h }
    (PyVal.str "a") (PyVal.list []) (PyVal.dict []) hhit rfl rfl rfl

/-- Claim C2 counterexample: a cache hit yields a response whose keys are
exactly `hitKeys` — `sql_executed`, `confidence` and `session_id` are
absent, although the claim requires them on every path. -/
theorem c2_counterexample :
    (ModernDataChatbot.ask envW stW "ventas" (some "s1") 0).toOption.map
        (fun o => o.response.map Prod.fst) = some hitKeys ∧
    hitKeys.contains "sql_executed" = false ∧
    hitKeys.contains "confidence" = false ∧
    hitKeys.contains "session_id" = false := by
  rw [ask_hit_W]
  refine ⟨rfl, rfl, rfl, rfl⟩

/-- Claim C2 (amended): every successful `ask` response on the cache-miss
path carries the keys `question, answer, data, insights, sql_used,
sql_executed, reasoning, confidence, cached, execution_time, session_id` —
in particular all nine keys the claim lists; on the cache-hit path the
response carries only `question, answer, data, insights, sql_used, cached,
execution_time`, so `sql_executed`, `confidence` and `session_id` are
missing there. -/
theorem c2_response_keys (env : Env) (st : ChatbotState) (q : String)
    (sid0 : Option String) (now : Nat) (out : AskOutcome)
    (hask : ModernDataChatbot.ask env st q sid0 now = Except.ok out) :
    (out.response.map Prod.fst = hitKeys ∧
      dictGet out.response "cached" = some (PyVal.bool true)) ∨
    (out.response.map Prod.fst = missKeys ∧
      dictGet out.response "cached" = some (PyVal.bool false)) := by
  cases hembed : env.embed q with
  | error msg =>
    rw [ask_embed_error env st q sid0 now msg hembed] at hask
    exact Except.noConfusion hask
  | ok qe =>
    rcases simFold_spec env.nrm st.cache.similarity_threshold qe st.cache.cache none 0 with
      ⟨heq, _⟩ | ⟨l₁, x, l₂, hdec, heq, _, _, _, _⟩
    · have hmiss := get_similar_query_of_fold_none env st.cache q qe hembed heq
      rw [ask_miss_eq env st q sid0 now st.cache qe hembed hmiss] at hask
      have hout : out = askMissResult env st q (sid0.getD env.newUuid) now st.cache qe :=
        (Except.ok.inj hask).symm
      right
      rw [hout]
      exact ⟨rfl, rfl⟩
    · have hhit := get_similar_query_of_fold_some env st.cache q qe x _ hembed heq
      obtain ⟨ans, dat, ins, _, _, _, hout⟩ :=
        ask_hit_inversion env st q sid0 now _ _ out hhit hask
      left
      rw [hout]
      exact ⟨rfl, rfl⟩

/-- The miss outcome used to witness the key-set theorem. -/
def outW : AskOutcome := askMissResult envW stE "ventas" "s" 0 stE.cache [1, 0]

theorem c2_response_keys_witness :
    (outW.response.map Prod.fst = hitKeys ∧
      dictGet outW.response "cached" = some (PyVal.bool true)) ∨
    (outW.response.map Prod.fst = missKeys ∧
      dictGet outW.response "cached" = some (PyVal.bool false)) :=
  c2_response_keys envW stE "ventas" (some "s") 0 outW rfl

-- ===========================================================================
-- Claim C9: frame property of a cache hit
-- ===========================================================================

/-- Claim C9: a cache-hit `ask` leaves session memory entirely unchanged (no
turn is added, so later follow-ups cannot see the hit through history), and
changes the cache only by bumping the matched entry's hit count: every other
key maps to the same entry as before. -/
theorem c9_cache_hit_frame (env : Env) (st : ChatbotState) (q : String)
    (sid0 : Option String) (now : Nat) (out : AskOutcome)
    (hask : ModernDataChatbot.ask env st q sid0 now = Except.ok out)
    (hc : dictGet out.response "cached" = some (PyVal.bool true)) :
    out.state.memory = st.memory ∧
    ∃ k e₀, (k, e₀) ∈ st.cache.cache ∧
      out.state.cache.cache
        = dictSet st.cache.cache k { e₀ with hit_count := e₀.hit_count + 1 } ∧
      out.state.cache.similarity_threshold = st.cache.similarity_threshold ∧
      ∀ k', k' ≠ k → dictGet out.state.cache.cache k' = dictGet st.cache.cache k' := by
  cases hembed : env.embed q with
  | error msg =>
    rw [ask_embed_error env st q sid0 now msg hembed] at hask
    exact Except.noConfusion hask
  | ok qe =>
    rcases simFold_spec env.nrm st.cache.similarity_threshold qe st.cache.cache none 0 with
      ⟨heq, _⟩ | ⟨l₁, x, l₂, hdec, heq, _, _, _, _⟩
    · have hmiss := get_similar_query_of_fold_none env st.cache q qe hembed heq
      rw [ask_miss_eq env st q sid0 now st.cache qe hembed hmiss] at hask
      have hout : out = askMissResult env st q (sid0.getD env.newUuid) now st.cache qe :=
        (Except.ok.inj hask).symm
      rw [hout] at hc
      have hfalse : dictGet (askMissResult env st q (sid0.getD env.newUuid) now
          st.cache qe).response "cached" = some (PyVal.bool false) := rfl
      rw [hfalse] at hc
      have : (false : Bool) = true := PyVal.bool.inj (Option.some.inj hc)
      exact absurd this (by simp)
    · have hhit := get_similar_query_of_fold_some env st.cache q qe x _ hembed heq
      obtain ⟨ans, dat, ins, _, _, _, hout⟩ :=
        ask_hit_inversion env st q sid0 now _ _ out hhit hask
      rw [hout]
      refine ⟨rfl, x.1, x.2, ?_, rfl, rfl, ?_⟩
      · have hx : x ∈ st.cache.cache := by
          rw [hdec]
          exact List.mem_append_right _ (List.mem_cons_self _ _)
        rw [Prod.mk.eta]
        exact hx
      · intro k' hk'
        exact dictGet_dictSet_ne _ _ _ _ hk'

theorem c9_cache_hit_frame_witness : outHitW.state.memory = stW.memory :=
  (c9_cache_hit_frame envW stW "ventas" (some "s1") 0 outHitW ask_hit_W rfl).1
